import Mathlib

/-! Shallow embedding of src/synchronicity.py, a bridge that offers a
blocking (synchronous) interface to asynchronous code.

Modelling conventions, faithful to the Python source:

* An event loop is identified by a numeric id; asyncio.new_event_loop
  hands out fresh ids (modelled by a counter).
* A coroutine object is modelled by its eventual outcome, an
  `Except exc value`: either the value it produces or the exception it
  raises.  Exception identity (re-raising the very same exception
  object) is modelled by equality of the exception value.
* An async generator object is modelled by the finite list of items it
  yields, followed by an optional exception raised after those items.
* Side effects of the Synchronizer (starting the background thread,
  creating the loop, submitting futures via run_coroutine_threadsafe,
  creating the Queue used as a stream channel) are tracked in an
  explicit `SyncState` record threaded through each operation. -/

namespace Synchronicity

variable {ε α : Type}

instance [DecidableEq ε] [DecidableEq α] : DecidableEq (Except ε α) := fun x y =>
  match x, y with
  | Except.ok a, Except.ok b =>
      if h : a = b then Decidable.isTrue (by rw [h])
      else Decidable.isFalse (by simp [h])
  | Except.error a, Except.error b =>
      if h : a = b then Decidable.isTrue (by rw [h])
      else Decidable.isFalse (by simp [h])
  | Except.ok _, Except.error _ => Decidable.isFalse (by simp)
  | Except.error _, Except.ok _ => Decidable.isFalse (by simp)

/-- Classification of the object returned by calling the wrapped target
`f(*args)`, exactly the three cases `_wrap_callable` distinguishes with
`inspect.iscoroutine` and `inspect.isasyncgen`: a coroutine, an async
generator, or any other (already-resolved) value. -/
inductive Res (ε α : Type) where
  | coroutine (outcome : Except ε α)
  | asyncgen (items : List α) (failure : Option ε)
  | plain (v : α)
deriving DecidableEq

/-- Thread-local context of the caller: the event loop currently running
on the calling thread, if any.  `asyncio.get_running_loop()` returns this
loop or raises RuntimeError when it is `none`. -/
structure Ctx where
  runningLoop : Option Nat
deriving DecidableEq

/-- Python `Synchronizer._is_async_context` (lines 34-39): calls
`asyncio.get_running_loop()` and returns `True` unless that raises
RuntimeError.  Hence: true iff ANY event loop is running on the calling
thread, with no comparison against this instance's own `self._loop`. -/
def is_async_context (ctx : Ctx) : Bool :=
  ctx.runningLoop.isSome

/-- Observable state of one Synchronizer instance plus effect counters:
`loop` is `self._loop`; the counters record how many background threads,
event loops, thread-safe futures (PendingCalls) and stream queues
(StreamChannels) have been created so far. -/
structure SyncState where
  loop : Option Nat
  threadsCreated : Nat
  loopsCreated : Nat
  futuresCreated : Nat
  channelsCreated : Nat
deriving DecidableEq

/-- A Synchronizer as `__init__` leaves it: `self._loop = None`, with no
thread, loop, future or channel created yet. -/
def initSyncState : SyncState :=
  ⟨none, 0, 0, 0, 0⟩

/-- Python `Synchronizer._get_loop` (lines 18-32) as executed when the
call runs without interleaving from other threads: return the existing
loop if `self._loop` is set; otherwise start the background thread,
whose body creates a fresh loop, stores it in `self._loop` and signals
readiness, then return the stored loop.  (The interleaved behaviour of
the same code is modelled separately by `RaceState` and `step`.) -/
def get_loop (st : SyncState) : Nat × SyncState :=
  match st.loop with
  | some l => (l, st)
  | none =>
      (st.loopsCreated,
       { st with
           loop := some st.loopsCreated
           threadsCreated := st.threadsCreated + 1
           loopsCreated := st.loopsCreated + 1 })

/-- A Python object as returned to the caller of a wrapped function:
a plain value, a raw coroutine object, a raw async generator object,
a `concurrent.futures.Future` handle, or a sync generator object
(whose body has not run yet, since Python generator bodies are lazy). -/
inductive PyObj (ε α : Type) where
  | obj (v : α)
  | coroObj (outcome : Except ε α)
  | agenObj (items : List α) (failure : Option ε)
  | futObj (outcome : Except ε α)
  | genObj (items : List α) (failure : Option ε)
deriving DecidableEq

/-- The object `_wrap_callable` returns unmodified when
`self._is_async_context()` is true: the raw result of `f(*args)`. -/
def rawObj : Res ε α → PyObj ε α
  | Res.coroutine outcome => PyObj.coroObj outcome
  | Res.asyncgen items failure => PyObj.agenObj items failure
  | Res.plain v => PyObj.obj v

/-- Python `Synchronizer._make_sync_function` (lines 41-47): get the
loop, submit the coroutine with `asyncio.run_coroutine_threadsafe`
(creating one future, i.e. one PendingCall), then either return the
future itself (`return_future` true) or block on `fut.result()`, which
returns the value or re-raises the captured exception unchanged. -/
def make_sync_function (coro : Except ε α) (return_future : Bool)
    (st : SyncState) : Except ε (PyObj ε α) × SyncState :=
  let ls := get_loop st
  let st2 := { ls.2 with futuresCreated := ls.2.futuresCreated + 1 }
  if return_future then
    (Except.ok (PyObj.futObj coro), st2)
  else
    match coro with
    | Except.ok v => (Except.ok (PyObj.obj v), st2)
    | Except.error e => (Except.error e, st2)

/-- One tagged message on the stream queue of `_make_sync_generator`:
`gen v` is `('gen', result)` (an Item), `exc e` is `('exc', exc)` (an
Error), `val` is `('val', None)` (Done). -/
inductive Msg (ε α : Type) where
  | gen (v : α)
  | exc (e : ε)
  | val
deriving DecidableEq

/-- Whether a message is terminal (Error or Done) in the sense of the
StreamChannel data model. -/
def Msg.isTerminal : Msg ε α → Bool
  | Msg.gen _ => false
  | Msg.exc _ => true
  | Msg.val => true

/-- Whether a message is an Error message. -/
def Msg.isExc : Msg ε α → Bool
  | Msg.exc _ => true
  | _ => false

/-- Whether a message is the Done message. -/
def Msg.isDone : Msg ε α → Bool
  | Msg.val => true
  | _ => false

/-- The full sequence of messages the inner `pump` coroutine (lines
52-59) enqueues onto the queue, for a source async generator that
yields `items` and then raises `failure` (or finishes normally when
`failure` is none).  Note the source puts `('val', None)` at function
level, AFTER the try/except: it runs after the `('exc', exc)` put as
well, so the error path enqueues an Error followed by a Done. -/
def pump (items : List α) (failure : Option ε) : List (Msg ε α) :=
  items.map Msg.gen ++
    (match failure with
     | some e => [Msg.exc e]
     | none => []) ++ [Msg.val]

/-- The consumer loop of `_make_sync_generator` (lines 62-69) applied to
a message sequence: repeatedly dequeue; on `('val', _)` return (end the
generator), on `('exc', exc)` raise it (ending the generator), otherwise
yield the item.  The result is the list of yielded items and the
exception raised at the end, if any; messages after the first terminal
are never dequeued. -/
def consumeMessages : List (Msg ε α) → List α × Option ε
  | [] => ([], none)
  | Msg.gen v :: rest =>
      match consumeMessages rest with
      | (ys, e) => (v :: ys, e)
  | Msg.exc e :: _ => ([], some e)
  | Msg.val :: _ => ([], none)

/-- Running the body of `_make_sync_generator` (lines 49-69) to
exhaustion: get the loop, create the queue (one StreamChannel) and
submit the pump (one future), then consume messages until a terminal
one.  Returns the yielded items and the exception raised, if any. -/
def run_sync_generator (items : List α) (failure : Option ε)
    (st : SyncState) : (List α × Option ε) × SyncState :=
  let ls := get_loop st
  let st2 := { ls.2 with
                 futuresCreated := ls.2.futuresCreated + 1
                 channelsCreated := ls.2.channelsCreated + 1 }
  (consumeMessages (pump items failure), st2)

/-- Python `f_wrapped` inside `Synchronizer._wrap_callable` (lines
72-82): run `res = f(*args)` (which may raise synchronously, the
`Except.error` case); if `self._is_async_context()` return `res`
unmodified; else dispatch on the kind of `res`: coroutine to
`_make_sync_function`, async generator to `_make_sync_generator`
(whose generator object is returned lazily, with no body run and hence
no effect yet), anything else returned unchanged. -/
def f_wrapped (fres : Except ε (Res ε α)) (ctx : Ctx)
    (return_future : Bool) (st : SyncState) :
    Except ε (PyObj ε α) × SyncState :=
  match fres with
  | Except.error e => (Except.error e, st)
  | Except.ok res =>
      if is_async_context ctx then
        (Except.ok (rawObj res), st)
      else
        match res with
        | Res.coroutine outcome => make_sync_function outcome return_future st
        | Res.asyncgen items failure =>
            (Except.ok (PyObj.genObj items failure), st)
        | Res.plain v => (Except.ok (PyObj.obj v), st)

/-- A member of a Python class dictionary: a callable (modelled, like
the target of `_wrap_callable`, by the outcome of calling it) or a
non-callable plain value.  `callable(v)` is true exactly for the first
constructor. -/
inductive Member (ε α : Type) where
  | callableM (f : Except ε (Res ε α))
  | plainM (v : α)
deriving DecidableEq

/-- Python `callable(v)` on a member. -/
def Member.isCallable : Member ε α → Bool
  | Member.callableM _ => true
  | Member.plainM _ => false

/-- A Python class: its `__name__`, its own `__dict__` (an ordered list
of name-member pairs), and its base class, if any (single inheritance
suffices for the properties considered; the implicit `object` base has
no members of its own). -/
inductive PyClass (ε α : Type) where
  | mk (name : String) (dict : List (String × Member ε α))
       (base : Option (PyClass ε α))

/-- The `__name__` of a class. -/
def PyClass.getName : PyClass ε α → String
  | PyClass.mk n _ _ => n

/-- The own `__dict__` of a class (no inherited members). -/
def PyClass.getDict : PyClass ε α → List (String × Member ε α)
  | PyClass.mk _ d _ => d

/-- Lookup in a class dictionary by name (first match wins). -/
def lookupDict : List (String × Member ε α) → String → Option (Member ε α)
  | [], _ => none
  | (k, v) :: rest, key => if k = key then some v else lookupDict rest key

/-- Python attribute lookup on a class: its own `__dict__` first, then
the base chain.  This is what "member accessible on T, including members
T inherits" means. -/
def lookupAttr : PyClass ε α → String → Option (Member ε α)
  | PyClass.mk _ dict none, key => lookupDict dict key
  | PyClass.mk _ dict (some b), key =>
      match lookupDict dict key with
      | some v => some v
      | none => lookupAttr b key

/-- A member of the facade class built by `_wrap_class`: either the
result of `self._wrap_callable(v, return_future)` applied to an original
member, or the original member copied unchanged. -/
inductive FMember (ε α : Type) where
  | wrappedM (v : Member ε α) (return_future : Bool)
  | copiedM (v : Member ε α)
deriving DecidableEq

/-- The facade class produced by `type(cls_new_name, tuple(), new_dict)`
in `_wrap_class`: a name and a dictionary, and NO bases (the empty bases
tuple means nothing is inherited beyond `object`). -/
structure Facade (ε α : Type) where
  name : String
  dict : List (String × FMember ε α)

/-- Lookup in a facade dictionary by name (first match wins). -/
def lookupFDict : List (String × FMember ε α) → String → Option (FMember ε α)
  | [], _ => none
  | (k, v) :: rest, key => if k = key then some v else lookupFDict rest key

/-- Attribute lookup on the facade (it has no bases to search). -/
def facadeLookup (f : Facade ε α) (key : String) : Option (FMember ε α) :=
  lookupFDict f.dict key

/-- The per-entry work of the `for k, v in cls.__dict__.items()` loop in
`_wrap_class` (lines 90-98): `__aenter__` becomes `__enter__` wrapped
with `return_future=False` (the source applies `_wrap_callable` there
without a callable check), `__aexit__` likewise becomes `__exit__`;
any other callable is wrapped with the default `return_future=True`;
any non-callable is copied unchanged. -/
def wrap_class_entry (kv : String × Member ε α) : String × FMember ε α :=
  match kv with
  | (k, v) =>
      if k = "__aenter__" then ("__enter__", FMember.wrappedM v false)
      else if k = "__aexit__" then ("__exit__", FMember.wrappedM v false)
      else if v.isCallable then (k, FMember.wrappedM v true)
      else (k, FMember.copiedM v)

/-- Python `Synchronizer._wrap_class` (lines 86-100): build a facade
whose name is the original name with the suffix "Synchronized" and whose
dictionary is the image of the original class's OWN dictionary under
`wrap_class_entry`; the facade is created with empty bases, so inherited
members of the original are not carried over. -/
def wrap_class (c : PyClass ε α) : Facade ε α :=
  ⟨c.getName ++ "Synchronized", c.getDict.map wrap_class_entry⟩

/-- The argument given to `Synchronizer.__call__`: a class, a
(non-class) callable, or anything else; `descr` stands for the `%s`
rendering of a non-wrappable object in the error message. -/
inductive WrapArg (ε α : Type) where
  | cls (c : PyClass ε α)
  | func (f : Except ε (Res ε α))
  | other (descr : String)

/-- Whether the argument is neither a class nor a callable. -/
def WrapArg.isOther : WrapArg ε α → Bool
  | WrapArg.other _ => true
  | _ => false

/-- What `Synchronizer.__call__` returns on success: a wrapped class or
a wrapped callable (which carries the default `return_future=True`). -/
inductive Wrapped (ε α : Type) where
  | wClass (c : Facade ε α)
  | wFunc (f : Except ε (Res ε α)) (return_future : Bool)

/-- Python `Synchronizer.__call__` (lines 102-108): classes (checked
first, before the callable test that classes would also pass) go to
`_wrap_class`; other callables go to `_wrap_callable` with the default
`return_future=True`; anything else raises
`Exception('Argument %s is not a class or a callable' % object)`. -/
def synchronizer_call : WrapArg ε α → Except String (Wrapped ε α)
  | WrapArg.cls c => Except.ok (Wrapped.wClass (wrap_class c))
  | WrapArg.func f => Except.ok (Wrapped.wFunc f true)
  | WrapArg.other d =>
      Except.error ("Argument " ++ d ++ " is not a class or a callable")

/-- Whether an `Except` result is an error (a raised exception). -/
def exceptIsError : Except σ β → Bool
  | Except.error _ => true
  | Except.ok _ => false

/-- Whether a wrapped-call result is a `concurrent.futures.Future`
handle rather than a resolved value. -/
def isFutResult : Except ε (PyObj ε α) → Bool
  | Except.ok (PyObj.futObj _) => true
  | _ => false

/-- Checks that no message other than the final one is terminal, i.e.
that a terminal message can only be the last message of the channel. -/
def terminalLastB : List (Msg ε α) → Bool
  | [] => true
  | [_] => true
  | m :: rest => !m.isTerminal && terminalLastB rest

/-- Modelled from the spec: the Context Detector as section 4.2 words
it — true iff the calling code is currently executing as scheduled work
on THIS instance's own scheduler (`selfLoop`), to be compared with
`is_async_context`, which the source implements without any reference
to `self._loop`. -/
def isAsyncContextSpec (ctx : Ctx) (selfLoop : Option Nat) : Bool :=
  match ctx.runningLoop, selfLoop with
  | some r, some s => r == s
  | _, _ => false

/-- Progress of one thread calling `_get_loop` concurrently: it has not
yet executed the `self._loop is not None` check (`start`); it has
started its background thread and is blocked in `is_ready.wait()`
(`spawned ready`, where `ready` records whether its thread's body has
run and set the event); or it has returned (`finished ret`). -/
inductive CallerS where
  | start
  | spawned (ready : Bool)
  | finished (ret : Nat)
deriving DecidableEq

/-- Shared state and the two callers, for the interleaved execution of
two concurrent `_get_loop` calls on one Synchronizer. -/
structure RaceState where
  loop : Option Nat
  threadsCreated : Nat
  loopsCreated : Nat
  caller0 : CallerS
  caller1 : CallerS
deriving DecidableEq

/-- Both callers about to enter `_get_loop` on a fresh Synchronizer. -/
def initRaceState : RaceState :=
  ⟨none, 0, 0, CallerS.start, CallerS.start⟩

/-- One step of a caller thread in `_get_loop`: at `start` it performs
the `self._loop is not None` check — returning the loop if set,
otherwise starting its background thread and blocking on
`is_ready.wait()`; once its ready event is set it resumes and returns
the CURRENT value of `self._loop` (line 32 re-reads the field). -/
def stepCaller (st : RaceState) (c : CallerS) : CallerS × RaceState :=
  match c with
  | CallerS.start =>
      match st.loop with
      | some l => (CallerS.finished l, st)
      | none =>
          (CallerS.spawned false,
           { st with threadsCreated := st.threadsCreated + 1 })
  | CallerS.spawned true => (CallerS.finished (st.loop.getD 0), st)
  | CallerS.spawned false => (CallerS.spawned false, st)
  | CallerS.finished r => (CallerS.finished r, st)

/-- One step of a caller's background thread: if spawned and not yet
run, execute `run_forever`'s prefix — create a fresh event loop, store
it in `self._loop` (overwriting any previous value) and set the ready
event. -/
def stepThread (st : RaceState) (c : CallerS) : CallerS × RaceState :=
  match c with
  | CallerS.spawned false =>
      (CallerS.spawned true,
       { st with
           loop := some st.loopsCreated
           loopsCreated := st.loopsCreated + 1 })
  | c => (c, st)

/-- A schedule entry: which thread runs next — caller 0 or 1, or the
background thread caller 0 or 1 started. -/
inductive Move where
  | c0 | t0 | c1 | t1
deriving DecidableEq

/-- Execute one scheduled step. -/
def step (st : RaceState) (m : Move) : RaceState :=
  match m with
  | Move.c0 =>
      match stepCaller st st.caller0 with
      | (c, st2) => { st2 with caller0 := c }
  | Move.t0 =>
      match stepThread st st.caller0 with
      | (c, st2) => { st2 with caller0 := c }
  | Move.c1 =>
      match stepCaller st st.caller1 with
      | (c, st2) => { st2 with caller1 := c }
  | Move.t1 =>
      match stepThread st st.caller1 with
      | (c, st2) => { st2 with caller1 := c }

/-- Execute a whole schedule. -/
def runMoves (ms : List Move) (st : RaceState) : RaceState :=
  ms.foldl step st

/-- An interleaving in which both callers pass the `self._loop is not
None` check before either background thread runs: check 0, check 1,
thread 0 body, caller 0 returns, thread 1 body, caller 1 returns. -/
def racySchedule : List Move :=
  [Move.c0, Move.c1, Move.t0, Move.c0, Move.t1, Move.c1]

/-- `k` serialized calls to `_get_loop` (each call completes before the
next begins), collecting the returned loops. -/
def runSerialCalls : Nat → SyncState → List Nat × SyncState
  | 0, st => ([], st)
  | Nat.succ k, st =>
      match get_loop st with
      | (l, st2) =>
          match runSerialCalls k st2 with
          | (ls, st3) => (l :: ls, st3)

/-- A base class owning one non-callable member named "m". -/
def exBase : PyClass Nat Nat :=
  PyClass.mk "B" [("m", Member.plainM 0)] none

/-- A derived class with empty own dictionary inheriting from `exBase`:
attribute "m" is accessible on it through the base. -/
def exDerived : PyClass Nat Nat :=
  PyClass.mk "T" [] (some exBase)

/-- A class with one asynchronous method and one plain attribute. -/
def exCls : PyClass Nat Nat :=
  PyClass.mk "C"
    [("bar", Member.callableM (Except.ok (Res.coroutine (Except.ok 6)))),
     ("x", Member.plainM 5)] none

/-- The `__aenter__` member of the scoped-resource example class. -/
def exAenter : Member Nat Nat :=
  Member.callableM (Except.ok (Res.coroutine (Except.ok 1)))

/-- The `__aexit__` member of the scoped-resource example class. -/
def exAexit : Member Nat Nat :=
  Member.callableM (Except.ok (Res.coroutine (Except.ok 0)))

/-- An async context manager class: a scoped-resource entry/exit pair
plus one ordinary asynchronous method. -/
def exResCls : PyClass Nat Nat :=
  PyClass.mk "R"
    [("__aenter__", exAenter),
     ("__aexit__", exAexit),
     ("bar", Member.callableM (Except.ok (Res.coroutine (Except.ok 2))))]
    none

/-! Helper lemmas shared by the claim theorems. -/

theorem pump_cons (x : α) (xs : List α) (failure : Option ε) :
    pump (x :: xs) failure = Msg.gen x :: pump xs failure := rfl

theorem pump_getLast (items : List α) (failure : Option ε) :
    (pump items failure).getLast? = some (Msg.val : Msg ε α) := by
  have h : pump items failure =
      (items.map Msg.gen ++
        (match failure with
         | some e => [Msg.exc e]
         | none => [])) ++ [Msg.val] := by
    simp [pump, List.append_assoc]
  rw [h, List.getLast?_concat]

theorem pump_done_count (items : List α) (failure : Option ε) :
    ((pump items failure).filter Msg.isDone).length = 1 := by
  induction items with
  | nil => cases failure <;> rfl
  | cons x xs ih => simpa [pump_cons, Msg.isDone] using ih

theorem pump_exc_count (items : List α) (failure : Option ε) :
    ((pump items failure).filter Msg.isExc).length =
      if failure.isSome then 1 else 0 := by
  induction items with
  | nil => cases failure <;> rfl
  | cons x xs ih => simpa [pump_cons, Msg.isExc] using ih

theorem consume_pump (items : List α) (failure : Option ε) :
    consumeMessages (pump items failure) = (items, failure) := by
  induction items with
  | nil => cases failure <;> rfl
  | cons x xs ih =>
      rw [pump_cons]
      simp only [consumeMessages]
      rw [ih]

theorem get_loop_some (st : SyncState) (l : Nat) (h : st.loop = some l) :
    get_loop st = (l, st) := by
  simp [get_loop, h]

theorem runSerial_stable (k : Nat) (st : SyncState) (l : Nat)
    (h : st.loop = some l) :
    runSerialCalls k st = (List.replicate k l, st) := by
  induction k with
  | zero => rfl
  | succ k ih => simp [runSerialCalls, get_loop_some st l h, ih, List.replicate]

theorem get_loop_keeps_futures (st : SyncState) :
    (get_loop st).2.futuresCreated = st.futuresCreated := by
  cases h : st.loop <;> simp [get_loop, h]

theorem get_loop_sets_loop (st : SyncState) :
    ((get_loop st).2).loop.isSome = true := by
  cases h : st.loop <;> simp [get_loop, h]

theorem f_wrapped_blocking {ε α : Type} (outcome : Except ε α) (ctx : Ctx)
    (st : SyncState) (hctx : is_async_context ctx = false) :
    (f_wrapped (Except.ok (Res.coroutine outcome)) ctx false st).1 =
      Except.map PyObj.obj outcome := by
  cases outcome <;> simp [f_wrapped, hctx, make_sync_function, Except.map]

/-! Claim theorems. -/

/-- C1, counterexample: the claim says that after the pump enqueues
Error or Done nothing further is ever enqueued and hence at most one
terminal message exists.  For a source generator that raises before
yielding anything, the pump enqueues an Error and then ALSO enqueues a
Done (the `('val', None)` put sits after the try/except), so the channel
carries two terminal messages and the Error is not the last message. -/
theorem c1_counterexample :
    ((pump ([] : List Nat) (some (0 : Nat))).filter Msg.isTerminal).length = 2 ∧
    terminalLastB (pump ([] : List Nat) (some (0 : Nat))) = false := by
  decide

/-- C1, amended: the pump enqueues all Items first in order, then on
failure exactly one Error, and in every case exactly one Done as the
final message — so the failure path carries two terminal messages, with
the Done last; the consumer stops at the first terminal message it
dequeues, observing exactly the items and then the failure, so nothing
after the first terminal is ever consumed. -/
theorem c1_amended (items : List Nat) (failure : Option Nat) :
    (pump items failure).getLast? = some Msg.val ∧
    ((pump items failure).filter Msg.isDone).length = 1 ∧
    ((pump items failure).filter Msg.isExc).length =
      (if failure.isSome then 1 else 0) ∧
    consumeMessages (pump items failure) = (items, failure) :=
  ⟨pump_getLast items failure, pump_done_count items failure,
   pump_exc_count items failure, consume_pump items failure⟩

/-- C1, amended, witness: for a stream yielding 2 and then raising 9,
the consumer observes exactly the item 2 and then the raised 9. -/
theorem c1_amended_witness :
    consumeMessages (pump [2] (some 9)) = ([2], some 9) :=
  (c1_amended [2] (some 9)).2.2.2

/-- C2, counterexample: `_is_async_context` asks only whether ANY event
loop is running on the calling thread; with loop 1 running on the
calling thread while the Synchronizer owns loop 0, it returns true even
though the caller is not executing on this instance's scheduler, where
the claim requires false. -/
theorem c2_counterexample :
    is_async_context ⟨some 1⟩ = true ∧
    isAsyncContextSpec ⟨some 1⟩ (some 0) = false := by
  decide

/-- C2, amended: `_is_async_context` returns true iff some event loop —
not necessarily this instance's scheduler — is running on the calling
thread; in particular it is true whenever the caller runs as scheduled
work on this instance's scheduler, and false exactly when no loop runs
on the calling thread. -/
theorem c2_amended (ctx : Ctx) (selfLoop : Option Nat) :
    (is_async_context ctx = true ↔ ctx.runningLoop.isSome = true) ∧
    (isAsyncContextSpec ctx selfLoop = true → is_async_context ctx = true) := by
  constructor
  · exact Iff.rfl
  · intro h
    cases hr : ctx.runningLoop with
    | none =>
        exfalso
        cases hs : selfLoop <;> simp [isAsyncContextSpec, hr, hs] at h
    | some r => simp [is_async_context, hr]

/-- C2, amended, witness: with loop 0 running on the calling thread and
owned by this instance, the detector reports true. -/
theorem c2_amended_witness : is_async_context ⟨some 0⟩ = true :=
  (c2_amended ⟨some 0⟩ (some 0)).2 (by decide)

/-- C3, counterexample: under the interleaving in which both callers
pass the unsynchronized `self._loop is not None` check before either
background thread runs, TWO threads and TWO event loops are created,
and the two calls return different loops (caller 0 gets loop 0, caller
1 gets loop 1) — refuting that any interleaving creates exactly one
scheduler returned by every call. -/
theorem c3_counterexample :
    (runMoves racySchedule initRaceState).loopsCreated = 2 ∧
    (runMoves racySchedule initRaceState).threadsCreated = 2 ∧
    (runMoves racySchedule initRaceState).caller0 = CallerS.finished 0 ∧
    (runMoves racySchedule initRaceState).caller1 = CallerS.finished 1 := by
  decide

/-- C3, amended: when calls to `_get_loop` do not interleave — each call
completes before the next begins — the first call creates exactly one
scheduler and one background thread, and every call returns that same
scheduler; the code does not guarantee this under concurrent
interleavings, since nothing synchronizes the check-then-create. -/
theorem c3_amended (k : Nat) :
    (runSerialCalls (k + 1) initSyncState).1 = List.replicate (k + 1) 0 ∧
    (runSerialCalls (k + 1) initSyncState).2.loopsCreated = 1 ∧
    (runSerialCalls (k + 1) initSyncState).2.threadsCreated = 1 := by
  have h1 : get_loop initSyncState = (0, ⟨some 0, 1, 1, 0, 0⟩) := rfl
  have h2 : runSerialCalls k (⟨some 0, 1, 1, 0, 0⟩ : SyncState) =
      (List.replicate k 0, ⟨some 0, 1, 1, 0, 0⟩) :=
    runSerial_stable k _ 0 rfl
  simp [runSerialCalls, h1, h2, List.replicate]

/-- C3, amended, witness: three serialized calls on a fresh Synchronizer
create exactly one loop. -/
theorem c3_amended_witness :
    (runSerialCalls 3 initSyncState).2.loopsCreated = 1 :=
  (c3_amended 2).2.1

/-- C4: for a coroutine-returning callable invoked from a thread with no
running loop, the adapter built with `return_future=False` blocks on the
submitted future (modelled by returning the resolved outcome rather
than a handle) and yields exactly what direct evaluation of the
coroutine yields — its value on success, or the very same exception
value re-raised on failure; one PendingCall is submitted and the
scheduler loop is (started if needed and) in place afterwards. -/
theorem c4_spec (outcome : Except Nat Nat) (ctx : Ctx) (st : SyncState)
    (hctx : is_async_context ctx = false) :
    (f_wrapped (Except.ok (Res.coroutine outcome)) ctx false st).1 =
      Except.map PyObj.obj outcome ∧
    (f_wrapped (Except.ok (Res.coroutine outcome)) ctx false st).2.futuresCreated =
      st.futuresCreated + 1 ∧
    (f_wrapped (Except.ok (Res.coroutine outcome)) ctx false st).2.loop.isSome =
      true := by
  refine ⟨f_wrapped_blocking outcome ctx st hctx, ?_, ?_⟩ <;>
    cases outcome <;>
      simp [f_wrapped, hctx, make_sync_function, get_loop_keeps_futures,
        get_loop_sets_loop]

/-- C4, witness: a coroutine resolving to 5, called from a loop-free
thread on a fresh Synchronizer, returns 5 with one future created. -/
theorem c4_spec_witness :
    (f_wrapped (Except.ok (Res.coroutine ((Except.ok 5 : Except Nat Nat))))
        (⟨none⟩ : Ctx) false initSyncState).1 =
      Except.map PyObj.obj (Except.ok 5) ∧
    (f_wrapped (Except.ok (Res.coroutine ((Except.ok 5 : Except Nat Nat))))
        (⟨none⟩ : Ctx) false initSyncState).2.futuresCreated =
      initSyncState.futuresCreated + 1 ∧
    (f_wrapped (Except.ok (Res.coroutine ((Except.ok 5 : Except Nat Nat))))
        (⟨none⟩ : Ctx) false initSyncState).2.loop.isSome = true :=
  c4_spec (Except.ok 5) ⟨none⟩ initSyncState rfl

/-- C5: for a synchronous callable — one whose call returns an
already-resolved value, neither a coroutine nor an async generator —
the wrapper returns exactly that value (in both the async-context
short-circuit and the final else branch) and leaves the Synchronizer
state untouched: no background thread, loop, future or channel is
created by the invocation. -/
theorem c5_spec {ε α : Type} (v : α) (ctx : Ctx) (return_future : Bool)
    (st : SyncState) :
    f_wrapped (Except.ok (Res.plain v) : Except ε (Res ε α)) ctx
        return_future st = (Except.ok (PyObj.obj v), st) := by
  cases h : is_async_context ctx <;> simp [f_wrapped, h, rawObj]

/-- C5, witness: wrapping a callable that returns the plain value 4
gives back 4 and leaves the fresh Synchronizer untouched. -/
theorem c5_spec_witness :
    f_wrapped (Except.ok (Res.plain 4) : Except Nat (Res Nat Nat))
        (⟨none⟩ : Ctx) true initSyncState =
      (Except.ok (PyObj.obj 4), initSyncState) :=
  c5_spec 4 ⟨none⟩ true initSyncState

/-- C6: for a wrapped callable returning an async generator that yields
1 and then raises E, invocation from a loop-free thread returns the sync
generator object, and consuming it yields exactly the item 1, then
raises the same exception E on the next pull, producing nothing further
(the consumer loop ends at the first terminal message). -/
theorem c6_spec (E : Nat) (ctx : Ctx) (st : SyncState)
    (hctx : is_async_context ctx = false) :
    (f_wrapped (Except.ok (Res.asyncgen [1] (some E))) ctx true st).1 =
      Except.ok (PyObj.genObj [1] (some E)) ∧
    (run_sync_generator [1] (some E) st).1 = ([1], some E) := by
  constructor
  · simp [f_wrapped, hctx]
  · simp [run_sync_generator, consume_pump]

/-- C6, witness: with E = 7, from a loop-free thread on a fresh
Synchronizer, the wrapper returns the generator and consumption gives
the item 1 followed by the raised 7. -/
theorem c6_spec_witness :
    (f_wrapped (Except.ok (Res.asyncgen [1] (some 7))) (⟨none⟩ : Ctx) true
        initSyncState).1 = Except.ok (PyObj.genObj [1] (some 7)) ∧
    (run_sync_generator [1] (some 7) initSyncState).1 = ([1], some 7) :=
  c6_spec 7 ⟨none⟩ initSyncState rfl

/-- C7, counterexample: the facade is built from `cls.__dict__` alone
and with empty bases, so a member the original class only inherits is
absent from the facade: "m" is accessible on `exDerived` through its
base, yet lookup on the wrapped facade finds nothing. -/
theorem c7_counterexample :
    (lookupAttr exDerived "m").isSome = true ∧
    (facadeLookup (wrap_class exDerived) "m").isSome = false := by
  decide

/-- C7, amended: the facade exposes exactly the members of the original
class's OWN dictionary: every own member other than the scoped-resource
pair appears under the same name — callables wrapped with the default
`return_future=True`, non-callables copied unchanged — the facade
dictionary has exactly one entry per own member (`__aenter__` and
`__aexit__` appearing renamed as `__enter__`/`__exit__`), the facade
name gains the "Synchronized" suffix, and members the original only
inherits are not carried over (the facade is built with no bases). -/
theorem c7_amended (T : PyClass Nat Nat) (k : String) (v : Member Nat Nat)
    (hmem : (k, v) ∈ T.getDict)
    (h1 : k ≠ "__aenter__") (h2 : k ≠ "__aexit__") :
    (k, if v.isCallable then FMember.wrappedM v true else FMember.copiedM v)
        ∈ (wrap_class T).dict ∧
    (wrap_class T).dict.length = T.getDict.length ∧
    (wrap_class T).name = T.getName ++ "Synchronized" := by
  refine ⟨?_, by simp [wrap_class], rfl⟩
  have he : wrap_class_entry (k, v) =
      (k, if v.isCallable then FMember.wrappedM v true
          else FMember.copiedM v) := by
    cases hc : v.isCallable <;> simp [wrap_class_entry, h1, h2, hc]
  have hm := List.mem_map_of_mem wrap_class_entry hmem
  rw [he] at hm
  simpa [wrap_class] using hm

/-- C7, amended, witness: the plain member "x" of `exCls` is copied
unchanged onto the facade. -/
theorem c7_amended_witness :
    ("x", FMember.copiedM (Member.plainM 5)) ∈ (wrap_class exCls).dict := by
  have h := (c7_amended exCls "x" (Member.plainM 5) (by decide) (by decide)
    (by decide)).1
  simpa [Member.isCallable] using h

/-- C8: `_wrap_class` wraps `__aenter__` and `__aexit__` — and only
those — with `return_future` forced to false, installing them as
`__enter__`/`__exit__` (every other callable member keeps the default
true); and a `return_future=False` wrapped coroutine call from a
loop-free thread runs to completion, returning the resolved value or
re-raising the failure, never a Future handle. -/
theorem c8_spec (T : PyClass Nat Nat) (v w : Member Nat Nat)
    (hv : ("__aenter__", v) ∈ T.getDict)
    (hw : ("__aexit__", w) ∈ T.getDict)
    (outcome : Except Nat Nat) (ctx : Ctx) (st : SyncState)
    (hctx : is_async_context ctx = false) :
    ("__enter__", FMember.wrappedM v false) ∈ (wrap_class T).dict ∧
    ("__exit__", FMember.wrappedM w false) ∈ (wrap_class T).dict ∧
    (∀ (k : String) (u : Member Nat Nat), (k, u) ∈ T.getDict →
      u.isCallable = true → k ≠ "__aenter__" → k ≠ "__aexit__" →
      (k, FMember.wrappedM u true) ∈ (wrap_class T).dict) ∧
    (f_wrapped (Except.ok (Res.coroutine outcome)) ctx false st).1 =
      Except.map PyObj.obj outcome ∧
    isFutResult (f_wrapped (Except.ok (Res.coroutine outcome)) ctx false st).1 =
      false := by
  refine ⟨?_, ?_, ?_, f_wrapped_blocking outcome ctx st hctx, ?_⟩
  · have hm := List.mem_map_of_mem wrap_class_entry hv
    simpa [wrap_class, wrap_class_entry] using hm
  · have hm := List.mem_map_of_mem wrap_class_entry hw
    simpa [wrap_class, wrap_class_entry] using hm
  · intro k u hu hcall hk1 hk2
    have hm := List.mem_map_of_mem wrap_class_entry hu
    have he : wrap_class_entry (k, u) = (k, FMember.wrappedM u true) := by
      simp [wrap_class_entry, hk1, hk2, hcall]
    rw [he] at hm
    simpa [wrap_class] using hm
  · rw [f_wrapped_blocking outcome ctx st hctx]
    cases outcome <;> simp [isFutResult, Except.map]

/-- C8, witness: on the scoped-resource class `exResCls`, the facade
holds `__enter__` wrapped with `return_future=False`, and a blocking
coroutine call on a fresh Synchronizer returns no Future handle. -/
theorem c8_spec_witness :
    ("__enter__", FMember.wrappedM exAenter false) ∈ (wrap_class exResCls).dict ∧
    isFutResult (f_wrapped
        (Except.ok (Res.coroutine ((Except.ok 5 : Except Nat Nat))))
        (⟨none⟩ : Ctx) false initSyncState).1 = false := by
  have h := c8_spec exResCls exAenter exAexit (by decide) (by decide)
    (Except.ok 5) ⟨none⟩ initSyncState rfl
  exact ⟨h.1, h.2.2.2.2⟩

/-- C9: `Synchronizer.__call__` raises, synchronously at wrap time, the
caller-misuse exception exactly when its argument is neither a class
nor a callable, with the message the source formats; classes and
callables never trigger it. -/
theorem c9_spec (arg : WrapArg Nat Nat) (d : String) :
    (exceptIsError (synchronizer_call arg) = true ↔
      WrapArg.isOther arg = true) ∧
    synchronizer_call (WrapArg.other d : WrapArg Nat Nat) =
      Except.error ("Argument " ++ d ++ " is not a class or a callable") := by
  constructor
  · cases arg <;> simp [synchronizer_call, exceptIsError, WrapArg.isOther]
  · rfl

/-- C9, witness: wrapping the non-class non-callable rendered as "42"
raises the caller-misuse exception with the formatted message. -/
theorem c9_spec_witness :
    synchronizer_call (WrapArg.other "42" : WrapArg Nat Nat) =
      Except.error ("Argument " ++ "42" ++ " is not a class or a callable") :=
  (c9_spec (WrapArg.other "42") "42").2

/-- C10: if the wrapped target raises synchronously — before returning a
coroutine or async generator — the wrapper re-raises that same exception
and the Synchronizer state is untouched: no background thread or loop is
started and no future (PendingCall) or queue (StreamChannel) is created
by the invocation. -/
theorem c10_spec {ε α : Type} (e : ε) (ctx : Ctx) (return_future : Bool)
    (st : SyncState) :
    f_wrapped (Except.error e : Except ε (Res ε α)) ctx return_future st =
      (Except.error e, st) := rfl

/-- C10, witness: a target raising the exception 3 propagates it with
the fresh Synchronizer left untouched. -/
theorem c10_spec_witness :
    f_wrapped (Except.error 3 : Except Nat (Res Nat Nat)) (⟨none⟩ : Ctx)
        true initSyncState = (Except.error 3, initSyncState) :=
  c10_spec 3 ⟨none⟩ true initSyncState

end Synchronicity
